import Mathlib

/-!
Verification of the MariaPy row-level synchronization engine
(src/mariapy/db_interface.py) against its natural-language specification.

The Python module is shallowly embedded: dynamically typed cell values
become the inductive type PyVal, a pandas DataFrame becomes a DataFrame
structure of named columns and rows, the database driver becomes an
explicit Gateway record of response functions, and the functions
query, is_row, transfer_nan_values_to_sql_null and dataframe2db are
translated statement by statement.  Python string operations are modelled
on Lean String: "".join is pyConcat, sep.join is sepJoin, s[:-1] is
strInit, s[2:] is strDrop2.
-/

namespace MariaPy

/-- PyVal models a dynamically typed scalar cell of a pandas DataFrame:
a Python str, int, bool, or the missing marker NaN. -/
inductive PyVal where
  | vStr (s : String)
  | vInt (n : Int)
  | vBool (b : Bool)
  | vNaN
  deriving DecidableEq

/-- pyStr models Python str(value) for the cell values above. -/
def pyStr : PyVal → String
  | .vStr s => s
  | .vInt n => toString n
  | .vBool b => if b then "True" else "False"
  | .vNaN => "nan"

/-- pyEqNULL v models the Python comparison value == "NULL": true exactly
when the value is the string "NULL" (no other runtime type compares equal
to a str in Python). -/
def pyEqNULL : PyVal → Bool
  | .vStr s => s == "NULL"
  | _ => false

/-- DataFrame models a pandas DataFrame as an ordered list of column names
together with rows; each row is a list of cells aligned with the columns.
The integer index is not modelled: dataframe2db immediately resets it with
reset_index(drop=True) and never transfers it. -/
structure DataFrame where
  columns : List String
  rows : List (List PyVal)
  deriving DecidableEq

/-- fillCell models the effect of DataFrame.fillna("NULL") on one cell:
NaN becomes the string "NULL", every other value is unchanged. -/
def fillCell : PyVal → PyVal
  | .vNaN => .vStr "NULL"
  | v => v

/-- fillna models df.fillna("NULL") applied to every cell of the frame. -/
def fillna (df : DataFrame) : DataFrame :=
  { columns := df.columns, rows := df.rows.map (List.map fillCell) }

/-- getCol cols row c models df.loc[idx, c] on the row: the cell in the
position of column c.  Column names are assumed unique (a DataFrame
invariant); a missing column defaults to NaN, a case never exercised. -/
def getCol (cols : List String) (row : List PyVal) (c : String) : PyVal :=
  row.getD (cols.findIdx (fun x => x == c)) .vNaN

/-- strInit models the Python slice s[:-1]: drop the last character. -/
def strInit (s : String) : String := ⟨s.data.dropLast⟩

/-- strDrop2 models the Python slice s[2:]: drop the first two characters. -/
def strDrop2 (s : String) : String := ⟨s.data.drop 2⟩

/-- pyConcat models "".join over a list of strings. -/
def pyConcat : List String → String
  | [] => ""
  | s :: rest => s ++ pyConcat rest

/-- sepJoin sep models the Python sep.join over a list of strings;
also models pandas df.columns.str.cat(sep). -/
def sepJoin (sep : String) : List String → String
  | [] => ""
  | [s] => s
  | s :: rest => s ++ sep ++ sepJoin sep rest

/-- transfer_nan_values_to_sql_null, from dataframe2db in
src/mariapy/db_interface.py: encode one row (whose NaN cells were already
filled with the string "NULL") as a comma separated SQL value list.  A value
equal to "NULL" is emitted bare, every other value is stringified and
double-quoted; the leading ", " of the fold is sliced off at the end. -/
def transfer_nan_values_to_sql_null (s : List PyVal) : String :=
  let string := pyConcat (s.map (fun value =>
    if !pyEqNULL value then ", \"" ++ pyStr value ++ "\"" else ", " ++ pyStr value))
  strDrop2 string

/-- Gateway models the database driver seen through pymysql and pandas:
runQuery returns the fetched rows of a SQL command, or none when the
driver raises; primaryKeys returns the Column_name values of
SHOW KEYS FROM table WHERE Key_name = PRIMARY, as read by self.dataframe. -/
structure Gateway where
  runQuery : String → Option (List (List PyVal))
  primaryKeys : String → List String

/-- query, from DBInterface.query: execute a SQL command and fetch all rows.
On any driver failure the Python function prints a warning and falls off the
end, returning None.  The model returns the optional result set paired with
a flag recording whether the warning was printed. -/
def query (gw : Gateway) (sql_cmd : String) : Option (List (List PyVal)) × Bool :=
  match gw.runQuery sql_cmd with
  | some res => (some res, false)
  | none => (none, true)

/-- is_row_sql builds the SELECT probe of DBInterface.is_row: the id value
is single-quoted when its runtime type is str and embedded bare otherwise. -/
def is_row_sql (table : String) (id : PyVal) (id_header : String) : String :=
  match id with
  | .vStr s => "SELECT * FROM " ++ table ++ " WHERE " ++ id_header ++ " = \x27" ++ s ++ "\x27;"
  | v => "SELECT * FROM " ++ table ++ " WHERE " ++ id_header ++ " = " ++ pyStr v ++ ";"

/-- is_row, from DBInterface.is_row: probe whether a row with the given id
exists.  id_header defaults to "id" when omitted.  The result of query is
taken by Python truthiness: None and the empty tuple are falsy. -/
def is_row (gw : Gateway) (table : String) (id : PyVal) (id_header : Option String) : Bool :=
  let h := match id_header with
    | none => "id"
    | some s => s
  let sql_cmd := is_row_sql table id h
  match (query gw sql_cmd).1 with
  | some res => !res.isEmpty
  | none => false

/-- showKeysSql is the primary-key discovery command issued once by
dataframe2db through self.dataframe. -/
def showKeysSql (db_table : String) : String :=
  "SHOW KEYS FROM " ++ db_table ++ " WHERE Key_name = \x27PRIMARY\x27"

/-- insertSql is the INSERT statement built by dataframe2db for an absent
row: every column in dataset order, values via the encoding subroutine. -/
def insertSql (db_table : String) (cols : List String) (row : List PyVal) : String :=
  "INSERT INTO " ++ db_table ++ " (" ++ sepJoin ", " cols ++ ") VALUES (" ++
    transfer_nan_values_to_sql_null row ++ ");"

/-- replaceSql is the REPLACE statement built by dataframe2db for a present
row under policy replace.  Faithful to the source, it carries no trailing
semicolon. -/
def replaceSql (db_table : String) (cols : List String) (row : List PyVal) : String :=
  "REPLACE INTO " ++ db_table ++ " (" ++ sepJoin ", " cols ++ ")" ++
    " VALUES (" ++ transfer_nan_values_to_sql_null row ++ ")"

/-- updateSetPiece is the fragment appended to the UPDATE statement for one
non-primary-key column: single-quoted when the cell differs from "NULL",
bare otherwise.  Each fragment starts with a space and ends with a comma. -/
def updateSetPiece (col : String) (v : PyVal) : String :=
  if !pyEqNULL v then " " ++ col ++ " = \x27" ++ pyStr v ++ "\x27,"
  else " " ++ col ++ " = " ++ pyStr v ++ ","

/-- updateSql is the UPDATE statement built by dataframe2db for a present
row under policy update: SET over df.drop(list_primary_keys, axis=1).columns
(all dataset columns not in the primary-key list, in dataset order) with the
trailing comma sliced off, then WHERE as the AND-join over the primary-key
columns with single-quoted values. -/
def updateSql (db_table : String) (cols pks : List String) (row : List PyVal) : String :=
  let sql1 := "UPDATE " ++ db_table ++ " SET"
  let sql2 := sql1 ++ pyConcat ((cols.filter (fun c => !pks.contains c)).map
    (fun col => updateSetPiece col (getCol cols row col)))
  let sql3 := strInit sql2 ++ " WHERE " ++
    sepJoin " AND " (pks.map (fun pk => pk ++ " = \x27" ++ pyStr (getCol cols row pk) ++ "\x27"))
  sql3 ++ ";"

/-- RowStep is the decision dataframe2db takes for one row: skip it, execute
a statement for it, or raise (the NotImplementedError for an unknown policy,
re-raised as KeyError by the enclosing except clause). -/
inductive RowStep where
  | skip
  | exec (sql : String)
  | err (msg : String)
  deriving DecidableEq

/-- idHeader is df.columns[0], the designated identifier column of the
dataset, which dataframe2db passes to is_row as id_header. -/
def idHeader (cols : List String) : String := cols.headD ""

/-- idValue is df.loc[idx, df.columns[0]], the identifier cell of a row. -/
def idValue (cols : List String) (row : List PyVal) : PyVal :=
  getCol cols row (idHeader cols)

/-- processRow is the body of the per-row loop of dataframe2db: probe
existence with is_row on the first column, then branch on the policy. -/
def processRow (gw : Gateway) (db_table if_exist : String) (cols pks : List String)
    (row : List PyVal) : RowStep :=
  if is_row gw db_table (idValue cols row) (some (idHeader cols)) then
    if if_exist == "fail" then .skip
    else if if_exist == "replace" then .exec (replaceSql db_table cols row)
    else if if_exist == "update" then .exec (updateSql db_table cols pks row)
    else .err "wrong input for if_exist"
  else .exec (insertSql db_table cols row)

/-- Event records one interaction of dataframe2db with the database:
the primary-key discovery query, one existence probe, or one executed
statement. -/
inductive Event where
  | pkQuery (sql : String)
  | probe (sql : String)
  | exec (sql : String)
  deriving DecidableEq

/-- probeSql is the SELECT probe dataframe2db issues for one row: is_row on
the first dataset column and the cell of that column. -/
def probeSql (db_table : String) (cols : List String) (row : List PyVal) : String :=
  is_row_sql db_table (idValue cols row) (idHeader cols)

/-- runRows runs the per-row loop of dataframe2db over the remaining rows,
returning the trace of database interactions and the first raised error,
which aborts the loop. -/
def runRows (gw : Gateway) (db_table if_exist : String) (cols pks : List String) :
    List (List PyVal) → List Event × Option String
  | [] => ([], none)
  | row :: rest =>
    match processRow gw db_table if_exist cols pks row with
    | .skip =>
      let r := runRows gw db_table if_exist cols pks rest
      (.probe (probeSql db_table cols row) :: r.1, r.2)
    | .exec s =>
      let r := runRows gw db_table if_exist cols pks rest
      (.probe (probeSql db_table cols row) :: .exec s :: r.1, r.2)
    | .err m => ([.probe (probeSql db_table cols row)], some m)

/-- SyncOutput is the observable outcome of one dataframe2db call: the trace
of database interactions, the error it raised if any, and the state of the
caller-owned DataFrame object after the call (the source mutates it in
place with reset_index and fillna). -/
structure SyncOutput where
  trace : List Event
  error : Option String
  df_after : DataFrame
  deriving DecidableEq

/-- dataframe2db, from DBInterface.dataframe2db: reset the index and fill
NaN with "NULL" in place on the caller-owned frame, fetch the primary keys
of the target table once, eagerly, then run the per-row loop. -/
def dataframe2db (gw : Gateway) (df : DataFrame) (db_table if_exist : String) : SyncOutput :=
  let df2 := fillna df
  let list_primary_keys := gw.primaryKeys db_table
  let r := runRows gw db_table if_exist df2.columns list_primary_keys df2.rows
  { trace := .pkQuery (showKeysSql db_table) :: r.1, error := r.2, df_after := df2 }

/-- syncStatements extracts, in order, the statements a call passed to
cur.execute. -/
def syncStatements (out : SyncOutput) : List String :=
  out.trace.filterMap (fun e => match e with
    | .exec s => some s
    | _ => none)

/-- isPkQuery tests whether an event is the primary-key discovery query. -/
def isPkQuery : Event → Bool
  | .pkQuery _ => true
  | _ => false

/-- ConnState models the pymysql connection of one DBSub scope: statements
committed so far, statements executed but not yet committed, and whether the
connection has been closed. -/
structure ConnState where
  committed : List String
  pending : List String
  closed : Bool
  deriving DecidableEq

/-- DBSub_exit, from DBSub.__exit__: first self.con.commit(), then
self.con.close().  The exception information passed by the with statement is
ignored, so the body runs identically on clean and exceptional exit and no
rollback is ever issued. -/
def DBSub_exit (_exc_type : Option String) (c : ConnState) : ConnState :=
  { committed := c.committed ++ c.pending, pending := [], closed := true }

/-- runSync wraps a dataframe2db call in its DBSub scope: the statements the
call executed sit pending on the connection, and scope exit runs DBSub_exit
with whatever exception the call raised. -/
def runSync (gw : Gateway) (df : DataFrame) (db_table if_exist : String) :
    ConnState × Option String :=
  let out := dataframe2db gw df db_table if_exist
  (DBSub_exit out.error { committed := [], pending := syncStatements out, closed := false },
    out.error)

/-- encodeVal states the value encoding in the specification words: the
bare token NULL for the missing sentinel, the double-quoted stringification
otherwise.  Compared against transfer_nan_values_to_sql_null. -/
def encodeVal (v : PyVal) : String :=
  if pyEqNULL v then "NULL" else "\"" ++ pyStr v ++ "\""

/-- updateAssign states one SET assignment in the specification words: the
column name, an equals sign, and the cell value, single-quoted unless the
cell holds the missing sentinel. -/
def updateAssign (cols : List String) (row : List PyVal) (col : String) : String :=
  if !pyEqNULL (getCol cols row col)
  then col ++ " = \x27" ++ pyStr (getCol cols row col) ++ "\x27"
  else col ++ " = " ++ pyStr (getCol cols row col)

/-- updateSqlSpec states the UPDATE statement shape in the specification
words: SET over every dataset column not in the primary-key list, joined by
", ", then WHERE as the AND-conjunction of single-quoted primary-key
equalities in primary-key order.  Compared against updateSql. -/
def updateSqlSpec (db_table : String) (cols pks : List String) (row : List PyVal) : String :=
  "UPDATE " ++ db_table ++ " SET " ++
    sepJoin ", " ((cols.filter (fun c => !pks.contains c)).map (updateAssign cols row)) ++
    " WHERE " ++
    sepJoin " AND " (pks.map (fun pk => pk ++ " = \x27" ++ pyStr (getCol cols row pk) ++ "\x27")) ++
    ";"

/-! Shared helper lemmas about the Python string operations. -/

theorem sepJoin_cons_cons (sep a b : String) (l : List String) :
    sepJoin sep (a :: b :: l) = a ++ sep ++ sepJoin sep (b :: l) := rfl

theorem comma_space_append (x : String) : ("," : String) ++ (" " ++ x) = ", " ++ x := by
  rw [← String.append_assoc]
  rw [show ("," : String) ++ " " = ", " from by decide]

theorem strInit_append_comma (x : String) : strInit (x ++ ",") = x := by
  apply String.ext
  show (x ++ ",").data.dropLast = x.data
  rw [String.data_append, show ("," : String).data = [','] from rfl]
  exact List.dropLast_concat

theorem strDrop2_comma_space (x : String) : strDrop2 (", " ++ x) = x := by
  apply String.ext
  show (", " ++ x).data.drop 2 = x.data
  rw [String.data_append, show (", " : String).data = [',', ' '] from rfl]
  rfl

theorem pyConcat_space_comma_map {α : Type} (f : α → String) (a : α) (l : List α) :
    pyConcat ((a :: l).map (fun x => " " ++ f x ++ ",")) =
      " " ++ sepJoin ", " ((a :: l).map f) ++ "," := by
  induction l generalizing a with
  | nil => simp [pyConcat, sepJoin, String.append_empty]
  | cons b l ih =>
    show (" " ++ f a ++ ",") ++ pyConcat ((b :: l).map (fun x => " " ++ f x ++ ",")) =
      " " ++ sepJoin ", " (f a :: f b :: l.map f) ++ ","
    rw [ih b, sepJoin_cons_cons]
    simp only [String.append_assoc, List.map_cons]
    rw [comma_space_append]

theorem pyConcat_comma_map {α : Type} (f : α → String) (a : α) (l : List α) :
    pyConcat ((a :: l).map (fun x => ", " ++ f x)) = ", " ++ sepJoin ", " ((a :: l).map f) := by
  induction l generalizing a with
  | nil => simp [pyConcat, sepJoin, String.append_empty]
  | cons b l ih =>
    show (", " ++ f a) ++ pyConcat ((b :: l).map (fun x => ", " ++ f x)) =
      ", " ++ sepJoin ", " (f a :: f b :: l.map f)
    rw [ih b, sepJoin_cons_cons]
    simp only [String.append_assoc, List.map_cons]

theorem pyStr_of_pyEqNULL {v : PyVal} (h : pyEqNULL v = true) : pyStr v = "NULL" := by
  cases v with
  | vStr s => simp only [pyEqNULL, beq_iff_eq] at h; simp [pyStr, h]
  | vInt n => simp [pyEqNULL] at h
  | vBool b => simp [pyEqNULL] at h
  | vNaN => simp [pyEqNULL] at h

theorem transferPiece_eq (value : PyVal) :
    (if !pyEqNULL value then ", \"" ++ pyStr value ++ "\"" else ", " ++ pyStr value) =
      ", " ++ encodeVal value := by
  cases h : pyEqNULL value with
  | true => simp [h, encodeVal, pyStr_of_pyEqNULL h]
  | false =>
    simp [h, encodeVal]
    rw [show (", \"" : String) = ", " ++ "\"" from by decide]
    simp only [String.append_assoc]

theorem transfer_eq_sepJoin (s : List PyVal) :
    transfer_nan_values_to_sql_null s = sepJoin ", " (s.map encodeVal) := by
  cases s with
  | nil => rfl
  | cons v rest =>
    show strDrop2 (pyConcat ((v :: rest).map (fun value =>
      if !pyEqNULL value then ", \"" ++ pyStr value ++ "\"" else ", " ++ pyStr value))) = _
    simp only [transferPiece_eq]
    rw [pyConcat_comma_map encodeVal v rest, strDrop2_comma_space]

/-! Claim theorems. -/

/-- Claim C5: every single value passed to the value-encoding subroutine
used by INSERT and REPLACE is encoded as the bare token NULL when it equals
the missing sentinel, and otherwise is stringified and emitted as a quoted
literal regardless of its source type: the subroutine agrees pointwise with
the spec-side encoder encodeVal, and encodeVal quotes every non-sentinel
runtime type (strings, integers, booleans, NaN) after stringification. -/
theorem c5_value_encoding :
    ∀ (s : List PyVal) (t : String) (n : Int) (b : Bool),
      transfer_nan_values_to_sql_null s = sepJoin ", " (s.map encodeVal)
      ∧ encodeVal (.vStr "NULL") = "NULL"
      ∧ encodeVal (.vStr t) = (if t == "NULL" then "NULL" else "\"" ++ t ++ "\"")
      ∧ encodeVal (.vInt n) = "\"" ++ toString n ++ "\""
      ∧ encodeVal (.vBool b) = "\"" ++ (if b then "True" else "False") ++ "\""
      ∧ encodeVal .vNaN = "\"" ++ "nan" ++ "\"" := by
  intro s t n b
  refine ⟨transfer_eq_sepJoin s, by decide, ?_, rfl, rfl, rfl⟩
  by_cases h : t = "NULL"
  · simp [encodeVal, pyEqNULL, h]
  · simp [encodeVal, pyEqNULL, pyStr, h]

/-- Claim C9: a genuine string value "NULL" is indistinguishable from a
missing value: the fillna normalization maps NaN to the very string "NULL",
the INSERT/REPLACE value encoder emits the bare token NULL for that string,
and the UPDATE SET fragment leaves it unquoted. -/
theorem c9_null_string_collides_with_missing :
    ∀ (r1 r2 : List PyVal) (c : String),
      List.map fillCell (r1 ++ .vNaN :: r2) = List.map fillCell (r1 ++ .vStr "NULL" :: r2)
      ∧ transfer_nan_values_to_sql_null (List.map fillCell (r1 ++ .vNaN :: r2)) =
          transfer_nan_values_to_sql_null (List.map fillCell (r1 ++ .vStr "NULL" :: r2))
      ∧ transfer_nan_values_to_sql_null [.vStr "NULL"] = "NULL"
      ∧ fillCell .vNaN = .vStr "NULL"
      ∧ updateSetPiece c (.vStr "NULL") = " " ++ c ++ " = NULL," := by
  intro r1 r2 c
  have hmap : List.map fillCell (r1 ++ .vNaN :: r2) =
      List.map fillCell (r1 ++ .vStr "NULL" :: r2) := by
    simp [List.map_append, fillCell]
  refine ⟨hmap, by rw [hmap], by decide, rfl, ?_⟩
  show (if !pyEqNULL (.vStr "NULL") then _ else " " ++ c ++ " = " ++ pyStr (.vStr "NULL") ++ ",") = _
  rw [if_neg (by decide)]
  rw [show (" = NULL," : String) = " = " ++ ("NULL" ++ ",") from by decide]
  simp only [String.append_assoc]
  rfl

/-- Claim C7: the existence probe issues a SELECT * query filtered by the
identifier column, single-quoting the identifier value exactly when its
runtime type is str and embedding every other runtime type bare, and
returns true if and only if the driver returned a non-empty result set. -/
theorem c7_existence_probe :
    ∀ (gw : Gateway) (table h s : String) (n : Int) (b : Bool) (v : PyVal),
      is_row_sql table (.vStr s) h =
        "SELECT * FROM " ++ table ++ " WHERE " ++ h ++ " = \x27" ++ s ++ "\x27;"
      ∧ is_row_sql table (.vInt n) h =
        "SELECT * FROM " ++ table ++ " WHERE " ++ h ++ " = " ++ toString n ++ ";"
      ∧ is_row_sql table (.vBool b) h =
        "SELECT * FROM " ++ table ++ " WHERE " ++ h ++ " = " ++
          (if b then "True" else "False") ++ ";"
      ∧ is_row_sql table .vNaN h =
        "SELECT * FROM " ++ table ++ " WHERE " ++ h ++ " = " ++ "nan" ++ ";"
      ∧ (is_row gw table v (some h) = true ↔
          ∃ res, gw.runQuery (is_row_sql table v h) = some res ∧ res ≠ []) := by
  intro gw table h s n b v
  refine ⟨rfl, rfl, rfl, rfl, ?_⟩
  cases hq : gw.runQuery (is_row_sql table v h) with
  | none => simp [is_row, query, hq]
  | some res => simp [is_row, query, hq]

/-- Claim C8: when the existence probe fails at the driver level, query
swallows the failure and reports it as a printed warning (the Boolean flag
of the model), the probe reports the row as absent, and processRow routes
the row into the INSERT branch, under every policy. -/
theorem c8_probe_failure_routes_to_insert (gw : Gateway) (db_table if_exist : String)
    (cols pks : List String) (row : List PyVal)
    (hfail : gw.runQuery (probeSql db_table cols row) = none) :
    query gw (probeSql db_table cols row) = (none, true)
    ∧ is_row gw db_table (idValue cols row) (some (idHeader cols)) = false
    ∧ processRow gw db_table if_exist cols pks row = .exec (insertSql db_table cols row) := by
  have hq : query gw (probeSql db_table cols row) = (none, true) := by
    simp [query, hfail]
  have hrow : is_row gw db_table (idValue cols row) (some (idHeader cols)) = false := by
    simp [is_row, query,
      show gw.runQuery (is_row_sql db_table (idValue cols row) (idHeader cols)) =
        none from hfail]
  refine ⟨hq, hrow, ?_⟩
  simp [processRow, hrow]

/-- Claim C8 witness: a gateway whose driver fails on every query routes a
concrete row into the INSERT branch with a warning. -/
theorem c8_witness :
    query (⟨fun _ => none, fun _ => []⟩ : Gateway) (probeSql "t" ["id"] [.vInt 1]) = (none, true)
    ∧ is_row (⟨fun _ => none, fun _ => []⟩ : Gateway) "t"
        (idValue ["id"] [.vInt 1]) (some (idHeader ["id"])) = false
    ∧ processRow (⟨fun _ => none, fun _ => []⟩ : Gateway) "t" "fail" ["id"] ["id"] [.vInt 1] =
        .exec (insertSql "t" ["id"] [.vInt 1]) :=
  c8_probe_failure_routes_to_insert (⟨fun _ => none, fun _ => []⟩ : Gateway) "t" "fail"
    ["id"] ["id"] [.vInt 1] rfl

/-- Claim C2, corrected: the synchronizer mutates the caller-owned dataset
in place.  After every call the caller object holds fillna df: every NaN
cell replaced by the string "NULL", column names and all non-missing cells
unchanged. -/
theorem c2_sync_mutates_dataset_in_place :
    ∀ (gw : Gateway) (df : DataFrame) (db_table if_exist s : String) (n : Int) (b : Bool),
      (dataframe2db gw df db_table if_exist).df_after = fillna df
      ∧ (fillna df).columns = df.columns
      ∧ (fillna df).rows = df.rows.map (List.map fillCell)
      ∧ fillCell .vNaN = .vStr "NULL"
      ∧ fillCell (.vStr s) = .vStr s
      ∧ fillCell (.vInt n) = .vInt n
      ∧ fillCell (.vBool b) = .vBool b := by
  intro gw df db_table if_exist s n b
  exact ⟨rfl, rfl, rfl, rfl, rfl, rfl, rfl⟩

/-- Claim C2 counterexample: a dataset holding one NaN cell is not equal to
itself after the sync call returns, refuting the claim that the caller
dataset object is unchanged. -/
theorem c2_counterexample :
    (dataframe2db (⟨fun _ => some [], fun _ => ["id"]⟩ : Gateway)
        ⟨["id", "x"], [[.vInt 1, .vNaN]]⟩ "t" "fail").df_after ≠
      (⟨["id", "x"], [[.vInt 1, .vNaN]]⟩ : DataFrame) := by
  decide

/-- Claim C10: DBSub scope exit first commits and then closes the
connection, ignoring any exception raised in the scope body, so every
statement executed before a mid-call failure is committed and no rollback
ever occurs: the exit result never depends on the exception, and after any
dataframe2db call, failed or not, the committed statements are exactly the
executed ones and the connection is closed. -/
theorem c10_exit_commits_then_closes :
    ∀ (exc : Option String) (c : ConnState) (gw : Gateway) (df : DataFrame)
      (db_table if_exist : String),
      DBSub_exit exc c = { committed := c.committed ++ c.pending, pending := [], closed := true }
      ∧ DBSub_exit exc c = DBSub_exit none c
      ∧ (runSync gw df db_table if_exist).1.committed =
          syncStatements (dataframe2db gw df db_table if_exist)
      ∧ (runSync gw df db_table if_exist).1.closed = true
      ∧ (runSync gw df db_table if_exist).2 = (dataframe2db gw df db_table if_exist).error := by
  intro exc c gw df db_table if_exist
  refine ⟨rfl, rfl, ?_, rfl, rfl⟩
  show [] ++ syncStatements (dataframe2db gw df db_table if_exist) = _
  exact List.nil_append _

theorem runRows_no_pkQuery (gw : Gateway) (db_table if_exist : String)
    (cols pks : List String) (rows : List (List PyVal)) :
    (runRows gw db_table if_exist cols pks rows).1.countP isPkQuery = 0 := by
  induction rows with
  | nil => rfl
  | cons row rest ih =>
    cases hstep : processRow gw db_table if_exist cols pks row with
    | skip => simp [runRows, hstep, List.countP_cons, isPkQuery, ih]
    | exec s => simp [runRows, hstep, List.countP_cons, isPkQuery, ih]
    | err m => simp [runRows, hstep, List.countP_cons, isPkQuery]

/-- Claim C6, corrected: dataframe2db fetches the primary-key set of the
target table exactly once per call, but eagerly, as the very first database
interaction of the call, before any row is examined and regardless of the
policy; the per-row loop itself never issues a primary-key query. -/
theorem c6_pk_fetch_eager_once :
    ∀ (gw : Gateway) (df : DataFrame) (db_table if_exist : String),
      (dataframe2db gw df db_table if_exist).trace.countP isPkQuery = 1
      ∧ (dataframe2db gw df db_table if_exist).trace.head? =
          some (.pkQuery (showKeysSql db_table)) := by
  intro gw df db_table if_exist
  constructor
  · show (Event.pkQuery (showKeysSql db_table) ::
      (runRows gw db_table if_exist (fillna df).columns (gw.primaryKeys db_table)
        (fillna df).rows).1).countP isPkQuery = 1
    simp [List.countP_cons, isPkQuery, runRows_no_pkQuery]
  · rfl

/-- Claim C6 counterexample: a call under policy fail, whose single present
row is skipped, so the Update branch is never taken and no statement is
executed at all, still issues one primary-key query, refuting the laziness
part of the claim. -/
theorem c6_counterexample :
    (dataframe2db (⟨fun _ => some [[.vInt 1]], fun _ => ["id"]⟩ : Gateway)
        ⟨["id"], [[.vInt 1]]⟩ "t" "fail").trace.countP isPkQuery ≠ 0
    ∧ syncStatements (dataframe2db (⟨fun _ => some [[.vInt 1]], fun _ => ["id"]⟩ : Gateway)
        ⟨["id"], [[.vInt 1]]⟩ "t" "fail") = [] := by
  exact ⟨by decide, by decide⟩

/-- Claim C3: under policy fail, a row whose identifier already exists is
skipped: processRow decides skip, the trace of the loop records only the
existence probe for that row (no executed statement, no error), and the
loop continues with the remaining rows. -/
theorem c3_fail_policy_skips_and_continues (gw : Gateway) (db_table : String)
    (cols pks : List String) (row : List PyVal) (rest : List (List PyVal))
    (hex : is_row gw db_table (idValue cols row) (some (idHeader cols)) = true) :
    processRow gw db_table "fail" cols pks row = .skip
    ∧ runRows gw db_table "fail" cols pks (row :: rest) =
        (.probe (probeSql db_table cols row) :: (runRows gw db_table "fail" cols pks rest).1,
          (runRows gw db_table "fail" cols pks rest).2) := by
  have hstep : processRow gw db_table "fail" cols pks row = .skip := by
    simp [processRow, hex]
  exact ⟨hstep, by simp [runRows, hstep]⟩

/-- Claim C3 witness: a concrete present row under policy fail is skipped
and the loop reaches the (empty) remainder of the dataset. -/
theorem c3_witness :
    processRow (⟨fun _ => some [[.vInt 1]], fun _ => ["id"]⟩ : Gateway) "t" "fail"
        ["id"] ["id"] [.vInt 1] = .skip
    ∧ runRows (⟨fun _ => some [[.vInt 1]], fun _ => ["id"]⟩ : Gateway) "t" "fail"
        ["id"] ["id"] ([.vInt 1] :: []) =
        (.probe (probeSql "t" ["id"] [.vInt 1]) ::
            (runRows (⟨fun _ => some [[.vInt 1]], fun _ => ["id"]⟩ : Gateway) "t" "fail"
              ["id"] ["id"] []).1,
          (runRows (⟨fun _ => some [[.vInt 1]], fun _ => ["id"]⟩ : Gateway) "t" "fail"
            ["id"] ["id"] []).2) :=
  c3_fail_policy_skips_and_continues (⟨fun _ => some [[.vInt 1]], fun _ => ["id"]⟩ : Gateway)
    "t" ["id"] ["id"] [.vInt 1] [] (by decide)

/-- Claim C1, corrected: with a policy value that is none of fail, replace
or update, the call aborts with the configuration error only upon the first
row whose identifier exists in the target table: when the first dataset row
is present, the whole call raises before executing any statement.  Rows
whose identifiers are absent are still inserted (see the counterexample),
so the abort is not unconditional. -/
theorem c1_unknown_policy_aborts_on_existing_row (gw : Gateway) (df : DataFrame)
    (db_table if_exist : String) (row : List PyVal) (rest : List (List PyVal))
    (hrows : (fillna df).rows = row :: rest)
    (h1 : if_exist ≠ "fail") (h2 : if_exist ≠ "replace") (h3 : if_exist ≠ "update")
    (hex : is_row gw db_table (idValue df.columns row) (some (idHeader df.columns)) = true) :
    (dataframe2db gw df db_table if_exist).error = some "wrong input for if_exist"
    ∧ syncStatements (dataframe2db gw df db_table if_exist) = [] := by
  have hstep : processRow gw db_table if_exist df.columns (gw.primaryKeys db_table) row =
      .err "wrong input for if_exist" := by
    simp [processRow, hex, h1, h2, h3]
  have hloop : runRows gw db_table if_exist df.columns (gw.primaryKeys db_table)
      ((fillna df).rows) =
      ([.probe (probeSql db_table df.columns row)], some "wrong input for if_exist") := by
    rw [hrows]
    simp [runRows, hstep]
  constructor
  · show (runRows gw db_table if_exist (fillna df).columns (gw.primaryKeys db_table)
      (fillna df).rows).2 = _
    rw [show (fillna df).columns = df.columns from rfl, hloop]
  · show (Event.pkQuery (showKeysSql db_table) ::
      (runRows gw db_table if_exist (fillna df).columns (gw.primaryKeys db_table)
        (fillna df).rows).1).filterMap _ = []
    rw [show (fillna df).columns = df.columns from rfl, hloop]
    rfl

/-- Claim C1 witness: a concrete call with unknown policy merge on a
dataset whose single row is present raises the configuration error with no
statement executed. -/
theorem c1_witness :
    (dataframe2db (⟨fun _ => some [[.vInt 1]], fun _ => ["id"]⟩ : Gateway)
        ⟨["id"], [[.vInt 1]]⟩ "t" "merge").error = some "wrong input for if_exist"
    ∧ syncStatements (dataframe2db (⟨fun _ => some [[.vInt 1]], fun _ => ["id"]⟩ : Gateway)
        ⟨["id"], [[.vInt 1]]⟩ "t" "merge") = [] :=
  c1_unknown_policy_aborts_on_existing_row
    (⟨fun _ => some [[.vInt 1]], fun _ => ["id"]⟩ : Gateway) ⟨["id"], [[.vInt 1]]⟩ "t" "merge"
    [.vInt 1] [] rfl (by decide) (by decide) (by decide) (by decide)

/-- Claim C1 counterexample: with unknown policy merge and a dataset whose
single row is absent from the target table, the call does not abort and an
INSERT statement is executed, refuting that no statement is executed for
any row regardless of existence. -/
theorem c1_counterexample :
    (dataframe2db (⟨fun _ => some [], fun _ => ["id"]⟩ : Gateway)
        ⟨["id"], [[.vInt 7]]⟩ "t" "merge").error = none
    ∧ syncStatements (dataframe2db (⟨fun _ => some [], fun _ => ["id"]⟩ : Gateway)
        ⟨["id"], [[.vInt 7]]⟩ "t" "merge") = ["INSERT INTO t (id) VALUES (\"7\");"] := by
  exact ⟨by decide, by decide⟩

theorem updateSetPiece_assign (cols : List String) (row : List PyVal) (col : String) :
    updateSetPiece col (getCol cols row col) = " " ++ updateAssign cols row col ++ "," := by
  unfold updateSetPiece updateAssign
  cases h : pyEqNULL (getCol cols row col) with
  | true =>
    simp only [h, Bool.not_true, Bool.false_eq_true, if_false]
    simp only [String.append_assoc]
  | false =>
    simp only [h, Bool.not_false, if_true]
    simp only [String.append_assoc]
    rw [show ("\x27" : String) ++ "," = "\x27," from by decide]

/-- Claim C4: for a present row under policy update, the executed statement
is the UPDATE whose SET clause ranges exactly over the dataset columns not
in the discovered primary-key set, in dataset order, and whose WHERE clause
is the AND-conjunction of single-quoted equalities over the primary-key
columns in primary-key order: updateSql equals its specification shape
updateSqlSpec, and no primary-key column occurs among the SET columns. -/
theorem c4_update_statement_shape (gw : Gateway) (db_table : String)
    (cols pks : List String) (row : List PyVal)
    (hex : is_row gw db_table (idValue cols row) (some (idHeader cols)) = true)
    (hne : cols.filter (fun c => !pks.contains c) ≠ []) :
    processRow gw db_table "update" cols pks row = .exec (updateSql db_table cols pks row)
    ∧ updateSql db_table cols pks row = updateSqlSpec db_table cols pks row
    ∧ ∀ c ∈ pks, c ∉ cols.filter (fun c => !pks.contains c) := by
  refine ⟨by simp [processRow, hex], ?_, ?_⟩
  · obtain ⟨a, A, hA⟩ : ∃ a A, cols.filter (fun c => !pks.contains c) = a :: A := by
      cases h : cols.filter (fun c => !pks.contains c) with
      | nil => exact absurd h hne
      | cons a A => exact ⟨a, A, rfl⟩
    simp only [updateSql, updateSqlSpec]
    rw [hA]
    rw [show ((a :: A).map (fun col => updateSetPiece col (getCol cols row col))) =
        ((a :: A).map (fun col => " " ++ updateAssign cols row col ++ ",")) from by
      simp only [updateSetPiece_assign]]
    rw [pyConcat_space_comma_map (updateAssign cols row) a A]
    rw [← String.append_assoc ("UPDATE " ++ db_table ++ " SET")
      (" " ++ sepJoin ", " ((a :: A).map (updateAssign cols row))) ","]
    rw [strInit_append_comma]
    simp only [String.append_assoc]
    rw [show (" SET" : String) ++
      (" " ++ (sepJoin ", " ((a :: A).map (updateAssign cols row)) ++
        (" WHERE " ++ (sepJoin " AND "
          (pks.map (fun pk => pk ++ (" = \x27" ++ (pyStr (getCol cols row pk) ++ "\x27")))) ++
          ";")))) =
      " SET " ++ (sepJoin ", " ((a :: A).map (updateAssign cols row)) ++
        (" WHERE " ++ (sepJoin " AND "
          (pks.map (fun pk => pk ++ (" = \x27" ++ (pyStr (getCol cols row pk) ++ "\x27")))) ++
          ";"))) from by
      rw [← String.append_assoc]
      rw [show (" SET" : String) ++ " " = " SET " from by decide]]
  · intro c hc hmem
    rw [List.mem_filter] at hmem
    simp at hmem
    exact hmem.2 hc

/-- Claim C4 witness: a concrete present row under policy update yields the
UPDATE statement in specification shape with the primary key excluded from
SET. -/
theorem c4_witness :
    processRow (⟨fun _ => some [[.vInt 1]], fun _ => ["id"]⟩ : Gateway) "t" "update"
        ["id", "x"] ["id"] [.vInt 1, .vStr "a"] =
        .exec (updateSql "t" ["id", "x"] ["id"] [.vInt 1, .vStr "a"])
    ∧ updateSql "t" ["id", "x"] ["id"] [.vInt 1, .vStr "a"] =
        updateSqlSpec "t" ["id", "x"] ["id"] [.vInt 1, .vStr "a"]
    ∧ ∀ c ∈ ["id"], c ∉ ["id", "x"].filter (fun c => ! (["id"].contains c)) :=
  c4_update_statement_shape (⟨fun _ => some [[.vInt 1]], fun _ => ["id"]⟩ : Gateway) "t"
    ["id", "x"] ["id"] [.vInt 1, .vStr "a"] (by decide) (by decide)

end MariaPy
